import Mathlib

/-!
Shallow embedding of `src/server.py` (pwndbg MCP server) and proofs about it.

The Python module drives an interactive GDB/pwndbg child process: it writes a
command line to the child's stdin, then reads the child's stdout byte-by-byte,
assembling completed lines and detecting the trailing prompt string
`"pwndbg>"` as a framing boundary, under a 5-second wall-clock budget.

Modelling conventions:
* Python `str` values are Lean `String`s (a wrapped `List Char`).
* The child's observable output is a timeline `List (Nat × Rd)`: each entry is
  a byte (or EOF, or an exception raised by `read`) together with the absolute
  time, in centiseconds, at which it becomes readable.  `select` on the pipe is
  readable iff the head entry's time has been reached; `read(1)` consumes it.
* Wall-clock time is tracked in centiseconds (the Python constants 5.0, 0.1,
  0.05, 0.01 become 500, 10, 5, 1).
* Python exceptions are modelled by `PyResult`; a `try/except` block is a
  `match` on it.
* The byte-read loop is written with an explicit fuel parameter so that it is
  a computable structural recursion; callers pass `stream.length + 100` fuel,
  which is more than any execution can consume (every iteration either
  consumes one stream entry or advances the clock by at least 15 cs toward
  the 500 cs deadline).
-/

namespace PwndbgServer

/-- Python exception flow: a computation either returns normally or raises. -/
inductive PyResult (α : Type) where
  | ok (val : α)
  | exn (err : String)
deriving DecidableEq

/-- Whitespace characters recognised by Python `str.strip`/`str.split`. -/
def pyWhitespace : List Char := [' ', '\t', '\n', '\r', '\x0b', '\x0c']

/-- Python `s.rstrip(chars)`: drop trailing characters belonging to `cs`. -/
def pyRstripChars (cs : List Char) (s : String) : String :=
  ⟨(s.data.reverse.dropWhile (fun c => decide (c ∈ cs))).reverse⟩

/-- Python `s.rstrip()`. -/
def pyRstrip (s : String) : String := pyRstripChars pyWhitespace s

/-- Python `s.lstrip()`. -/
def pyLstrip (s : String) : String :=
  ⟨s.data.dropWhile (fun c => decide (c ∈ pyWhitespace))⟩

/-- Python `s.strip()`. -/
def pyStrip (s : String) : String := pyRstrip (pyLstrip s)

/-- Python `s.lower()` (ASCII case folding; identity on Hangul, as in CPython). -/
def pyLower (s : String) : String := ⟨s.data.map Char.toLower⟩

/-- Python `sep.join(xs)`. -/
def pyJoin (sep : String) : List String → String
  | [] => ""
  | [x] => x
  | x :: y :: rest => x ++ sep ++ pyJoin sep (y :: rest)

/-- Does `p` occur at the very start of `l`? -/
def beginsWith : List Char → List Char → Bool
  | [], _ => true
  | _ :: _, [] => false
  | p :: ps, c :: cs => (p == c) && beginsWith ps cs

/-- Python `sub in s` on character lists: does `sub` occur contiguously in `l`? -/
def containsSub (sub : List Char) : List Char → Bool
  | [] => sub.isEmpty
  | c :: rest => beginsWith sub (c :: rest) || containsSub sub rest

/-- Python `s.endswith(p)`. -/
def pyEndsWith (s p : String) : Bool := beginsWith p.data.reverse s.data.reverse

/-- Python `pattern in s` on strings. -/
def pyContains (s sub : String) : Bool := containsSub sub.data s.data

/-- Python `s.split()` (split on whitespace runs, dropping empty fields). -/
def pySplitWs (s : String) : List String :=
  let step := fun (c : Char) (acc : List Char × List (List Char)) =>
    if c ∈ pyWhitespace then
      if acc.1 = [] then ([], acc.2) else ([], acc.1 :: acc.2)
    else (c :: acc.1, acc.2)
  let fin := s.data.foldr step ([], [])
  ((if fin.1 = [] then fin.2 else fin.1 :: fin.2)).map (fun l => ⟨l⟩)

/-- Lexicographic (code-point) string order used by Python `sorted`. -/
def charListLe : List Char → List Char → Bool
  | [], _ => true
  | _ :: _, [] => false
  | a :: as, b :: bs => if a = b then charListLe as bs else decide (a.toNat < b.toNat)

/-- Insertion into a sorted list of strings. -/
def insertSorted (x : String) : List String → List String
  | [] => [x]
  | y :: ys => if charListLe x.data y.data then x :: y :: ys else y :: insertSorted x ys

/-- Python `sorted` on a list of strings (insertion sort; order is what matters). -/
def sortStrings : List String → List String
  | [] => []
  | x :: xs => insertSorted x (sortStrings xs)

/-! ## The child-process output model -/

/-- One unit of the child's stdout behaviour, as observed by `read(1)`. -/
inductive Rd where
  /-- `read(1)` yields one character. -/
  | chr (c : Char)
  /-- `read(1)` yields `""`: the stream is closed (EOF / child exit). -/
  | closed
  /-- `read(1)` raises an exception with this message. -/
  | fault (e : String)
deriving DecidableEq

/-- Why the byte-read loop of `_execute_safe_command` stopped. -/
inductive ExitReason where
  /-- A completed line ended with the prompt sentinel (line 82 of server.py). -/
  | promptLine
  /-- The unterminated buffer ended with the prompt sentinel (line 86). -/
  | promptBuf
  /-- The 200-line output cap was exceeded (line 92). -/
  | truncated
  /-- `read(1)` returned the empty string: EOF (line 95). -/
  | eofClosed
  /-- Silence after output: the idle-confirmation poll found nothing (line 103). -/
  | idleQuiet
  /-- The `while time.time() - start_time < timeout` guard expired (line 65). -/
  | deadline
  /-- Fuel ran out (unreachable for the fuel supplied by callers). -/
  | fuelOut
deriving DecidableEq

/-- State left behind by the byte-read loop. -/
structure LoopOut where
  lines : List String
  buffer : String
  reason : ExitReason
deriving DecidableEq

/-- `"pwndbg>"`, the prompt sentinel (lines 82 and 86 of server.py). -/
def promptSentinel : String := "pwndbg>"

/-- The literal truncation marker appended at line 93 of server.py. -/
def truncationMarker : String := "... (출력 제한: 200줄)"

/-- The loop deadline: `timeout = 5.0` seconds, in centiseconds (line 62). -/
def timeoutCs : Nat := 500

/--
The byte-read loop of `_execute_safe_command` (server.py lines 60–106).

Arguments: fuel, remaining output timeline, current time `t` (cs since the
loop started), completed lines so far, accumulation buffer.

Each iteration mirrors one pass of the Python `while` loop:
`select([stdout], [], [], 0.1)` is readable iff the head timeline entry's
availability time is `≤ t + 10`; if readable, `read(1)` consumes it.
On a quiet slice with at least one completed line and an empty buffer, the
loop sleeps 5 cs, re-polls with a 1 cs slice, and stops if still quiet;
otherwise it sleeps 10 cs and retries.
-/
def execLoop : Nat → List (Nat × Rd) → Nat → List String → String → PyResult LoopOut
  | 0, _, _, lines, buffer => PyResult.ok ⟨lines, buffer, ExitReason.fuelOut⟩
  | fuel + 1, stream, t, lines, buffer =>
    if t < timeoutCs then
      match stream with
      | (a, rd) :: rest =>
        if a ≤ t + 10 then
          -- select returned ready; read one byte
          match rd with
          | Rd.fault e => PyResult.exn e
          | Rd.closed => PyResult.ok ⟨lines, buffer, ExitReason.eofClosed⟩
          | Rd.chr c =>
            let buffer1 := buffer.push c
            if c = '\n' then
              let line := pyRstripChars ['\n', '\r'] buffer1
              let lines1 := if line ≠ "" then lines ++ [line] else lines
              if pyEndsWith line promptSentinel then
                PyResult.ok ⟨lines1, "", ExitReason.promptLine⟩
              else if lines1.length > 200 then
                PyResult.ok ⟨lines1 ++ [truncationMarker], "", ExitReason.truncated⟩
              else
                execLoop fuel rest (max t a) lines1 ""
            else if pyEndsWith buffer1 promptSentinel then
              PyResult.ok
                ⟨(if pyStrip buffer1 ≠ "" then lines ++ [pyRstrip buffer1] else lines),
                 buffer1, ExitReason.promptBuf⟩
            else if lines.length > 200 then
              PyResult.ok ⟨lines ++ [truncationMarker], buffer1, ExitReason.truncated⟩
            else
              execLoop fuel rest (max t a) lines buffer1
        else
          -- quiet slice: t advances to t + 10
          if lines ≠ [] ∧ buffer = "" then
            -- sleep 0.05 then re-poll with slice 0.01 (lines 101-104)
            if a ≤ t + 16 then execLoop fuel ((a, rd) :: rest) (max (t + 15) a) lines buffer
            else PyResult.ok ⟨lines, buffer, ExitReason.idleQuiet⟩
          else
            -- sleep 0.1 and keep waiting (line 106)
            execLoop fuel ((a, rd) :: rest) (t + 20) lines buffer
      | [] =>
        -- the pipe never becomes readable again
        if lines ≠ [] ∧ buffer = "" then
          PyResult.ok ⟨lines, buffer, ExitReason.idleQuiet⟩
        else
          execLoop fuel [] (t + 20) lines buffer
    else
      PyResult.ok ⟨lines, buffer, ExitReason.deadline⟩

/-- What the transport layer does during one `_execute_safe_command` call. -/
structure Transport where
  /-- `some e` iff `stdin.write`/`flush` raises an exception with message `e`. -/
  writeFault : Option String
  /-- The child's stdout timeline for this command. -/
  stream : List (Nat × Rd)

/-- Observable outcome of one operation at the tool boundary. -/
structure ExecOutcome where
  /-- What escapes the function boundary: a string, or a propagated exception. -/
  result : PyResult String
  /-- The exact bytes written to the child's stdin, if any (`f"{command}\n"`). -/
  written : Option String
  /-- Whether the child's pipes were touched (any write or read attempted). -/
  touchedPipes : Bool
deriving DecidableEq

/-- server.py line 50: the "not ready" message. -/
def notConnectedMsg : String :=
  "Error: GDB 세션이 연결되지 않음. start_debug_session()을 먼저 실행하세요."

/-- server.py line 120: `f"명령어 실행 실패: {e}"`. -/
def execFailMsg (e : String) : String := "명령어 실행 실패: " ++ e

/-- server.py line 115: `f"명령어 '{command}' 실행 완료"`. -/
def execDoneMsg (command : String) : String :=
  "명령어 \x27" ++ command ++ "\x27 실행 완료"

/-- server.py line 117: `f"명령어 '{command}' 실행됨 (응답 없음)"`. -/
def execNoOutputMsg (command : String) : String :=
  "명령어 \x27" ++ command ++ "\x27 실행됨 (응답 없음)"

/-- Run the byte-read loop on a stdout timeline, from an empty state. -/
def collectedOut (stream : List (Nat × Rd)) : PyResult LoopOut :=
  execLoop (stream.length + 100) stream 0 [] ""

/-- server.py lines 108–110: fold a leftover non-whitespace buffer in as a final line. -/
def finalLines (out : LoopOut) : List String :=
  if pyStrip out.buffer ≠ "" then out.lines ++ [pyStrip out.buffer] else out.lines

/-- server.py lines 57–117: everything after the stdin write (raises propagate). -/
def execAfterWrite (tr : Transport) (command : String) : PyResult String :=
  match collectedOut tr.stream with
  | PyResult.exn e => PyResult.exn e
  | PyResult.ok out =>
    let lines := finalLines out
    if lines ≠ [] then
      let result := pyJoin "\n" lines
      PyResult.ok (if pyStrip result ≠ "" then result else execDoneMsg command)
    else
      PyResult.ok (execNoOutputMsg command)

/-- server.py lines 53–117: the body of the `try` block (write, loop, assemble). -/
def execBody (tr : Transport) (command : String) : PyResult String :=
  match tr.writeFault with
  | some e => PyResult.exn e
  | none => execAfterWrite tr command

/-- The bytes `stdin.write` delivered, if the write did not raise. -/
def writtenBytes (tr : Transport) (command : String) : Option String :=
  match tr.writeFault with
  | some _ => none
  | none => some (command ++ "\n")

/--
server.py lines 45–120, `_execute_safe_command`: the not-connected guard,
then the `try`/`except Exception` wrapper around `execBody`.
-/
def execute_safe_command (conn : Bool) (tr : Transport) (command : String) : ExecOutcome :=
  if conn = false then
    ⟨PyResult.ok notConnectedMsg, none, false⟩
  else
    match execBody tr command with
    | PyResult.ok s => ⟨PyResult.ok s, writtenBytes tr command, true⟩
    | PyResult.exn e => ⟨PyResult.ok (execFailMsg e), writtenBytes tr command, true⟩

/-! ## Session lifecycle (`start_debug_session`, `stop_debug_session`) -/

/-- The two module-level globals `gdb_process` and `is_connected`. -/
structure SessionState where
  gdbProcess : Option Nat
  isConnected : Bool
deriving DecidableEq

/-- Environment of one `start_debug_session` call. -/
structure StartEnv where
  /-- `os.path.exists(binary_path)`. -/
  pathExists : Bool
  /-- `some e` iff `subprocess.Popen` raises with message `e`. -/
  spawnFault : Option String
  /-- The spawned child's stdout timeline during banner absorption. -/
  bannerStream : List (Nat × Rd)
  /-- Whether `gdb_process.poll()` reports the child already exited (line 206). -/
  childExited : Bool
  /-- The handle of the freshly spawned child. -/
  newHandle : Nat

/-- Observable outcome of one `start_debug_session` call. -/
structure StartOutcome where
  message : String
  state : SessionState
  /-- Whether a child process was spawned during the call. -/
  spawned : Bool
deriving DecidableEq

/-- server.py line 154: the double-start message. -/
def alreadyActiveMsg : String :=
  "이미 GDB 세션이 활성화되어 있습니다. stop_debug_session()을 먼저 실행하세요."

/-- server.py line 157: `f"Error: 바이너리 파일을 찾을 수 없습니다: {binary_path}"`. -/
def targetNotFoundMsg (binaryPath : String) : String :=
  "Error: 바이너리 파일을 찾을 수 없습니다: " ++ binaryPath

/-- server.py line 209: the unexpected-exit message. -/
def processDiedMsg : String := "Error: GDB 프로세스가 예기치 않게 종료되었습니다."

/-- server.py line 217: `f"GDB 세션 시작 실패: {e}"`. -/
def startFailMsg (e : String) : String := "GDB 세션 시작 실패: " ++ e

/-- server.py lines 190–203: the banner-absorption loop (no command written). -/
def bannerLoop : Nat → List (Nat × Rd) → Nat → String → PyResult String
  | 0, _, _, buffer => PyResult.ok buffer
  | fuel + 1, stream, t, buffer =>
    if t < timeoutCs then
      match stream with
      | (a, rd) :: rest =>
        if a ≤ t + 10 then
          match rd with
          | Rd.fault e => PyResult.exn e
          | Rd.closed => PyResult.ok buffer
          | Rd.chr c =>
            let buffer1 := buffer.push c
            if pyEndsWith buffer1 promptSentinel then PyResult.ok buffer1
            else bannerLoop fuel rest (max t a) buffer1
        else bannerLoop fuel ((a, rd) :: rest) (t + 20) buffer
      | [] => bannerLoop fuel [] (t + 20) buffer
    else PyResult.ok buffer

/-- server.py lines 148–217, `start_debug_session`. -/
def start_debug_session (st : SessionState) (binaryPath : String) (env : StartEnv) :
    StartOutcome :=
  if st.isConnected then
    ⟨alreadyActiveMsg, st, false⟩
  else if binaryPath ≠ "" ∧ env.pathExists = false then
    ⟨targetNotFoundMsg binaryPath, st, false⟩
  else
    match env.spawnFault with
    | some e => ⟨startFailMsg e, ⟨none, false⟩, false⟩
    | none =>
      let successMsg :=
        if binaryPath ≠ "" then "✓ GDB 세션 시작됨 (바이너리: " ++ binaryPath ++ ")"
        else "✓ GDB 세션 시작됨 (바이너리 없음)"
      match bannerLoop (env.bannerStream.length + 100) env.bannerStream 0 "" with
      | PyResult.exn e => ⟨startFailMsg e, ⟨none, false⟩, true⟩
      | PyResult.ok _ =>
        if env.childExited then ⟨processDiedMsg, ⟨none, false⟩, true⟩
        else ⟨successMsg, ⟨some env.newHandle, true⟩, true⟩

/-- server.py line 225: the not-active message of `stop_debug_session`. -/
def notActiveMsg : String := "GDB 세션이 활성화되어 있지 않습니다."

/-- server.py line 232: the success message of `stop_debug_session`. -/
def stopOkMsg : String := "✓ GDB 세션이 종료되었습니다."

/-- server.py line 234: `f"GDB 세션 종료 실패: {e}"`. -/
def stopFailMsg (e : String) : String := "GDB 세션 종료 실패: " ++ e

/--
server.py lines 219–234, `stop_debug_session`.  `terminateFault = some e`
models `gdb_process.terminate()` raising with message `e`; the `except`
block returns the failure string and the two globals keep their values.
-/
def stop_debug_session (st : SessionState) (terminateFault : Option String) :
    String × SessionState :=
  if st.isConnected = false then
    (notActiveMsg, st)
  else
    match st.gdbProcess with
    | some _ =>
      match terminateFault with
      | some e => (stopFailMsg e, st)
      | none => (stopOkMsg, ⟨none, false⟩)
    | none => (stopOkMsg, ⟨none, false⟩)

/-! ## The fixed pass-through tools (server.py lines 240–338) -/

/-- server.py lines 240–243. -/
def heap (conn : Bool) (tr : Transport) : ExecOutcome :=
  execute_safe_command conn tr "heap"

/-- server.py lines 245–248. -/
def bins (conn : Bool) (tr : Transport) : ExecOutcome :=
  execute_safe_command conn tr "bins"

/-- server.py lines 250–253. -/
def vis (conn : Bool) (tr : Transport) : ExecOutcome :=
  execute_safe_command conn tr "vis_heap_chunks"

/-- server.py lines 255–260, `malloc_chunk`. -/
def malloc_chunk (conn : Bool) (tr : Transport) (address : String) : ExecOutcome :=
  if address = "" then ⟨PyResult.ok "Error: 주소를 입력해주세요", none, false⟩
  else execute_safe_command conn tr ("chunk " ++ address)

/-- server.py lines 266–269. -/
def checksec (conn : Bool) (tr : Transport) : ExecOutcome :=
  execute_safe_command conn tr "checksec"

/-- server.py lines 271–274. -/
def vmmap (conn : Bool) (tr : Transport) : ExecOutcome :=
  execute_safe_command conn tr "vmmap"

/-- server.py lines 276–279. -/
def canary (conn : Bool) (tr : Transport) : ExecOutcome :=
  execute_safe_command conn tr "canary"

/-- server.py lines 285–288. -/
def regs (conn : Bool) (tr : Transport) : ExecOutcome :=
  execute_safe_command conn tr "registers"

/-- server.py lines 290–293. -/
def stack (conn : Bool) (tr : Transport) : ExecOutcome :=
  execute_safe_command conn tr "stack"

/-- server.py lines 295–300, `telescope`. -/
def telescope (conn : Bool) (tr : Transport) (address : String) : ExecOutcome :=
  if address ≠ "" then execute_safe_command conn tr ("telescope " ++ address)
  else execute_safe_command conn tr "telescope"

/-- server.py lines 302–305. -/
def context (conn : Bool) (tr : Transport) : ExecOutcome :=
  execute_safe_command conn tr "context"

/-- server.py lines 311–316, `search`. -/
def search (conn : Bool) (tr : Transport) (pattern : String) : ExecOutcome :=
  if pattern = "" then ⟨PyResult.ok "Error: 검색할 패턴을 입력해주세요", none, false⟩
  else execute_safe_command conn tr ("search " ++ pattern)

/-- server.py lines 318–323, `find`. -/
def find (conn : Bool) (tr : Transport) (pattern : String) : ExecOutcome :=
  if pattern = "" then ⟨PyResult.ok "Error: 검색할 패턴을 입력해주세요", none, false⟩
  else execute_safe_command conn tr ("find " ++ pattern)

/-- server.py lines 325–328. -/
def got (conn : Bool) (tr : Transport) : ExecOutcome :=
  execute_safe_command conn tr "got"

/-- server.py lines 330–333. -/
def plt (conn : Bool) (tr : Transport) : ExecOutcome :=
  execute_safe_command conn tr "plt"

/-- server.py lines 335–338. -/
def rop (conn : Bool) (tr : Transport) : ExecOutcome :=
  execute_safe_command conn tr "rop"

/-! ## The free-form command gate (`execute_custom_command`) -/

/-- server.py lines 20–43: the `ALLOWED_COMMANDS` whitelist. -/
def ALLOWED_COMMANDS : List String :=
  ["heap", "bins", "vis_heap_chunks", "heap chunks", "chunk",
   "fastbins", "smallbins", "largebins", "unsortedbin", "tcache", "arena",
   "checksec", "vmmap", "canary", "piebase", "procinfo",
   "registers", "regs", "stack", "telescope", "context", "hexdump",
   "search", "find", "got", "plt", "rop", "ropper", "strings",
   "disasm", "disassemble", "nearpc", "pdisass",
   "break", "continue", "step", "next", "finish", "run",
   "info", "print", "x", "examine", "backtrace", "bt", "frame",
   "set", "show", "list", "file", "load"]

/-- server.py lines 363–368: the `dangerous_patterns` denylist, in source order. -/
def dangerous_patterns : List String :=
  ["rm", "del", "format", "mkfs", "dd if=", "dd of=",
   "sudo", "su", "chmod +x", "wget", "curl", "nc ", "netcat",
   "python -c", "perl -e", "ruby -e", "bash -c", "sh -c",
   "$(", "\x60", "&&", "||", ";", "|", ">", ">>", "<"]

/-- The branch taken by the validation section of `execute_custom_command`. -/
inductive GateResult where
  /-- `if not command` (line 348). -/
  | emptyCmd
  /-- `if not command_parts` (line 353). -/
  | noParts
  /-- base token not in `ALLOWED_COMMANDS` (line 359). -/
  | notWhitelisted
  /-- first matching forbidden substring found at line 371. -/
  | dangerousPattern (p : String)
  /-- `len(command) > 200` (line 375). -/
  | tooLong
  /-- all checks passed. -/
  | accepted
deriving DecidableEq

/-- server.py lines 348–376: the validation section of `execute_custom_command`. -/
def validateCustomCommand (command : String) : GateResult :=
  if command = "" then GateResult.emptyCmd
  else
    match pySplitWs command with
    | [] => GateResult.noParts
    | base :: _ =>
      if ¬ ALLOWED_COMMANDS.contains base then GateResult.notWhitelisted
      else
        match dangerous_patterns.find? (fun p => pyContains (pyLower command) p) with
        | some p => GateResult.dangerousPattern p
        | none =>
          if command.length > 200 then GateResult.tooLong
          else GateResult.accepted

/-- server.py line 360: the not-whitelisted message, with the sorted whitelist. -/
def notWhitelistedMsg : String :=
  "Error: 허용되지 않은 명령어입니다. 사용 가능한 명령어: " ++
    pyJoin ", " (sortStrings ALLOWED_COMMANDS)

/-- server.py line 372: `f"Error: 보안상 위험한 패턴이 감지되었습니다: {pattern}"`. -/
def dangerousPatternMsg (p : String) : String :=
  "Error: 보안상 위험한 패턴이 감지되었습니다: " ++ p

/-- server.py lines 345–383, `execute_custom_command`. -/
def execute_custom_command (conn : Bool) (tr : Transport) (command : String) : ExecOutcome :=
  match validateCustomCommand command with
  | GateResult.emptyCmd => ⟨PyResult.ok "Error: 명령어를 입력해주세요", none, false⟩
  | GateResult.noParts => ⟨PyResult.ok "Error: 올바른 명령어를 입력해주세요", none, false⟩
  | GateResult.notWhitelisted => ⟨PyResult.ok notWhitelistedMsg, none, false⟩
  | GateResult.dangerousPattern p => ⟨PyResult.ok (dangerousPatternMsg p), none, false⟩
  | GateResult.tooLong =>
    ⟨PyResult.ok "Error: 명령어가 너무 깁니다 (최대 200자)", none, false⟩
  | GateResult.accepted =>
    let o := execute_safe_command conn tr command
    match o.result with
    | PyResult.ok r =>
      ⟨PyResult.ok ("✓ 사용자 정의 명령어 실행됨: " ++ command ++ "\n\n" ++ r),
       o.written, o.touchedPipes⟩
    | PyResult.exn e =>
      ⟨PyResult.ok ("사용자 정의 명령어 실행 실패: " ++ e), o.written, o.touchedPipes⟩

/-! ## Stream constructors used in the statements -/

/-- A burst of characters, all readable immediately. -/
def charsStream (cs : List Char) : List (Nat × Rd) := cs.map (fun c => (0, Rd.chr c))

/-- A whole string readable immediately, character by character. -/
def streamOf (s : String) : List (Nat × Rd) := charsStream s.data

/-- The characters a child emits to print each of `ls` as a newline-terminated line. -/
def flatChars (ls : List String) : List Char := ls.flatMap (fun l => l.data ++ ['\n'])

/-- Timeline of a child that prints each of `ls` as a line, all immediately. -/
def linesStream (ls : List String) : List (Nat × Rd) := charsStream (flatChars ls)

/--
A well-formed output line: non-empty, free of line terminators, and not
containing the prompt sentinel (so no prefix of it can be mistaken for a
prompt by the framer).
-/
def GoodLine (l : String) : Prop :=
  l.data ≠ [] ∧ (∀ c ∈ l.data, c ≠ '\n' ∧ c ≠ '\r') ∧
    containsSub promptSentinel.data l.data = false

instance (l : String) : Decidable (GoodLine l) := by
  unfold GoodLine; infer_instance

/-- 500 pairwise-distinct non-empty benign lines: `"x"`, `"xx"`, …, `"x"*500`. -/
def cls : List String := (List.range 500).map (fun i => ⟨List.replicate (i + 1) 'x'⟩)

/-! ## Semantics of the string helpers -/

lemma beginsWith_iff (p : List Char) : ∀ l, beginsWith p l = true ↔ ∃ r, l = p ++ r := by
  induction p with
  | nil => intro l; simp [beginsWith]
  | cons a as ih =>
    intro l
    cases l with
    | nil => simp [beginsWith]
    | cons c cs =>
      simp only [beginsWith, Bool.and_eq_true, beq_iff_eq, ih, List.cons_append,
        List.cons.injEq]
      constructor
      · rintro ⟨rfl, r, rfl⟩; exact ⟨r, rfl, rfl⟩
      · rintro ⟨r, rfl, rfl⟩; exact ⟨rfl, r, rfl⟩

lemma containsSub_iff (sub : List Char) : ∀ l, containsSub sub l = true ↔
    ∃ u v, l = u ++ sub ++ v := by
  intro l
  induction l with
  | nil =>
    simp only [containsSub, List.isEmpty_iff]
    constructor
    · rintro rfl; exact ⟨[], [], rfl⟩
    · rintro ⟨u, v, h⟩
      rcases List.append_eq_nil.mp h.symm with ⟨h1, rfl⟩
      rcases List.append_eq_nil.mp h1 with ⟨rfl, rfl⟩
      rfl
  | cons c rest ih =>
    simp only [containsSub, Bool.or_eq_true, beginsWith_iff, ih]
    constructor
    · rintro (⟨r, hr⟩ | ⟨u, v, huv⟩)
      · exact ⟨[], r, by simpa using hr⟩
      · exact ⟨c :: u, v, by simp [huv]⟩
    · rintro ⟨u, v, huv⟩
      cases u with
      | nil => exact Or.inl ⟨v, by simpa using huv⟩
      | cons a u' =>
        injection huv with h1 h2
        subst h1
        exact Or.inr ⟨u', v, h2⟩

lemma pyEndsWith_iff (s p : String) : pyEndsWith s p = true ↔ ∃ u, s.data = u ++ p.data := by
  unfold pyEndsWith
  rw [beginsWith_iff]
  constructor
  · rintro ⟨r, hr⟩
    refine ⟨r.reverse, ?_⟩
    have h2 := congrArg List.reverse hr
    simpa using h2
  · rintro ⟨u, hu⟩
    refine ⟨u.reverse, ?_⟩
    have h2 := congrArg List.reverse hu
    simpa using h2

/-- If `pd` never occurs in `l`, then no prefix of `l` ends with `pd`. -/
lemma not_endsWith_of_not_containsSub {pd : String} {l : List Char}
    (hno : containsSub pd.data l = false) :
    ∀ x r, x ++ r = l → pyEndsWith ⟨x⟩ pd = false := by
  intro x r hxr
  by_contra hcon
  rw [Bool.not_eq_false] at hcon
  rcases (pyEndsWith_iff ⟨x⟩ pd).mp hcon with ⟨u, hu⟩
  have hx : x = u ++ pd.data := hu
  have htrue : containsSub pd.data l = true := by
    rw [containsSub_iff]
    exact ⟨u, r, by rw [← hxr, hx]⟩
  rw [htrue] at hno
  cases hno

lemma dropWhile_eq_self_of_none {p : Char → Bool} {l : List Char}
    (h : ∀ c ∈ l, p c = false) : l.dropWhile p = l := by
  cases l with
  | nil => rfl
  | cons c cs =>
    rw [List.dropWhile_cons]
    rw [h c (List.mem_cons_self c cs)]
    simp

lemma mk_push (l : List Char) (c : Char) : String.push ⟨l⟩ c = ⟨l ++ [c]⟩ := rfl

lemma mk_ne_empty_iff (l : List Char) : (⟨l⟩ : String) ≠ "" ↔ l ≠ [] := by
  constructor
  · intro h hl; exact h (by rw [hl])
  · intro h hc
    apply h
    have hd : (⟨l⟩ : String).data = ("" : String).data := by rw [hc]
    exact hd

lemma pyRstripChars_newline (done : List Char)
    (h : ∀ c ∈ done, c ≠ '\n' ∧ c ≠ '\r') :
    pyRstripChars ['\n', '\r'] ⟨done ++ ['\n']⟩ = ⟨done⟩ := by
  unfold pyRstripChars
  congr 1
  show ((done ++ ['\n']).reverse.dropWhile (fun c => decide (c ∈ ['\n', '\r']))).reverse = done
  rw [List.reverse_append]
  have h1 : (['\n'] : List Char).reverse = ['\n'] := rfl
  rw [h1, List.singleton_append, List.dropWhile_cons]
  rw [if_pos (by decide)]
  rw [dropWhile_eq_self_of_none, List.reverse_reverse]
  intro c hc
  rcases h c (by simpa using hc) with ⟨hc1, hc2⟩
  simp [hc1, hc2]

/-! ## Claim C1: framing of `"foo\nresult-line\npwndbg> "` -/

/--
C1, counterexample: on the byte stream `"foo\nresult-line\npwndbg> "` the
command execution does NOT return just the two lines `foo` and
`result-line`; the claim's predicted result is wrong for this input.
-/
theorem C1_claim_false_at_foo :
    (execute_safe_command true ⟨none, streamOf "foo\nresult-line\npwndbg> "⟩ "foo").result ≠
      PyResult.ok "foo\nresult-line" := by decide

/--
C1, amended: on the byte stream `"foo\nresult-line\npwndbg> "` the command
execution returns FOUR lines joined by line terminators:
`foo`, `result-line`, then `pwndbg>` twice — the sentinel-bearing fragment is
appended once when the prompt is detected in the unterminated buffer
(server.py line 88) and once more from the residual buffer after the loop
(line 110), because the buffer is not cleared at the prompt-in-buffer break.
-/
theorem C1_sentinel_fragment_included :
    (execute_safe_command true ⟨none, streamOf "foo\nresult-line\npwndbg> "⟩ "foo").result =
      PyResult.ok "foo\nresult-line\npwndbg>\npwndbg>" := by decide

/-! ## Claim C3: `"heap; rm -rf /"` and the command gate -/

/--
C3, counterexample: `"heap; rm -rf /"` is rejected by the whitelist check,
not by the dangerous-pattern check: whitespace splitting makes the base token
`"heap;"`, which is not in `ALLOWED_COMMANDS`, so the gate returns the
not-whitelisted rejection before any forbidden substring is ever examined.
-/
theorem C3_claim_false_not_dangerous_pattern :
    validateCustomCommand "heap; rm -rf /" = GateResult.notWhitelisted ∧
    GateResult.notWhitelisted ≠ GateResult.dangerousPattern ";" ∧
    GateResult.notWhitelisted ≠ GateResult.dangerousPattern "rm" := by decide

/--
C3, amended: `"heap; rm -rf /"` is rejected, but with the NotWhitelisted
rejection (its base token after whitespace splitting is `"heap;"`, which is
not whitelisted); the dangerous-pattern check is never reached for it.  A
variant whose base token is exactly `heap`, such as `"heap ; rm -rf /"`, is
rejected with a DangerousPattern rejection naming the first matching
forbidden substring (`"rm"`).
-/
theorem C3_rejected_as_not_whitelisted (conn : Bool) (tr : Transport) :
    execute_custom_command conn tr "heap; rm -rf /" =
      ⟨PyResult.ok notWhitelistedMsg, none, false⟩ ∧
    validateCustomCommand "heap ; rm -rf /" = GateResult.dangerousPattern "rm" := by
  constructor
  · have hv : validateCustomCommand "heap; rm -rf /" = GateResult.notWhitelisted := by decide
    unfold execute_custom_command
    rw [hv]
  · decide

/-! ## Claim C4: `stop_debug_session` -/

/--
C4, counterexample: when `terminate()` raises, `stop_debug_session` does NOT
release the handle and does NOT set the status to disconnected — the
`except` block returns the failure string with both globals untouched, so
the session stays active with its handle still held.
-/
theorem C4_claim_false_handle_kept :
    (stop_debug_session ⟨some 1, true⟩ (some "boom")).1 = stopFailMsg "boom" ∧
    (stop_debug_session ⟨some 1, true⟩ (some "boom")).2.isConnected = true ∧
    (stop_debug_session ⟨some 1, true⟩ (some "boom")).2.gdbProcess = some 1 := by decide

/--
C4, amended: on a disconnected session `stop` fails with the not-active
message and changes nothing.  On a connected session, if the termination
request does not raise (or no handle is held, so none is issued) the handle
is released and the status becomes disconnected; but if the termination
request raises, `stop` returns a failure string and leaves the handle and
the status unchanged — the release is NOT unconditional.
-/
theorem C4_stop_behaviour (st : SessionState) (terminateFault : Option String) :
    (st.isConnected = false → stop_debug_session st terminateFault = (notActiveMsg, st)) ∧
    (st.isConnected = true → terminateFault = none →
      stop_debug_session st terminateFault = (stopOkMsg, ⟨none, false⟩)) ∧
    (st.isConnected = true → st.gdbProcess = none →
      stop_debug_session st terminateFault = (stopOkMsg, ⟨none, false⟩)) ∧
    (∀ h e, st.isConnected = true → st.gdbProcess = some h → terminateFault = some e →
      stop_debug_session st terminateFault = (stopFailMsg e, st)) := by
  obtain ⟨p, c⟩ := st
  refine ⟨?_, ?_, ?_, ?_⟩
  · intro hc
    simp only at hc
    subst hc
    rfl
  · intro hc hf
    simp only at hc
    subst hc
    subst hf
    cases p <;> rfl
  · intro hc hp
    simp only at hc hp
    subst hc
    subst hp
    rfl
  · intro h e hc hp hf
    simp only at hc hp
    subst hc
    subst hp
    subst hf
    rfl

/-- C4, witness: a concrete run of every branch of `C4_stop_behaviour`. -/
theorem C4_stop_witness :
    stop_debug_session ⟨some 3, true⟩ (some "EPERM") = (stopFailMsg "EPERM", ⟨some 3, true⟩) ∧
    stop_debug_session ⟨some 3, true⟩ none = (stopOkMsg, ⟨none, false⟩) ∧
    stop_debug_session ⟨some 3, false⟩ none = (notActiveMsg, ⟨some 3, false⟩) :=
  ⟨(C4_stop_behaviour ⟨some 3, true⟩ (some "EPERM")).2.2.2 3 "EPERM" rfl rfl rfl,
   (C4_stop_behaviour ⟨some 3, true⟩ none).2.1 rfl rfl,
   (C4_stop_behaviour ⟨some 3, false⟩ none).1 rfl⟩

/-! ## Claim C8: double start -/

/--
C8: calling `start_debug_session` while a session is already active returns
the already-active message immediately: nothing is spawned and the session
state is returned unchanged.
-/
theorem C8_double_start (st : SessionState) (binaryPath : String) (env : StartEnv)
    (h : st.isConnected = true) :
    start_debug_session st binaryPath env = ⟨alreadyActiveMsg, st, false⟩ := by
  unfold start_debug_session
  rw [if_pos h]

/-- C8, witness: double start at a concrete ready session. -/
theorem C8_double_start_witness :
    start_debug_session ⟨some 1, true⟩ "/bin/ls" ⟨true, none, [], false, 2⟩ =
      ⟨alreadyActiveMsg, ⟨some 1, true⟩, false⟩ :=
  C8_double_start ⟨some 1, true⟩ "/bin/ls" ⟨true, none, [], false, 2⟩ rfl

/-! ## Claim C9: execute before start touches no pipe -/

/--
C9: with the connection flag down, `_execute_safe_command` returns the
not-ready message; nothing is written to the child's stdin and nothing is
read from its stdout, whatever the transport would have done.
-/
theorem C9_not_ready_no_pipe_io (tr : Transport) (command : String) :
    execute_safe_command false tr command = ⟨PyResult.ok notConnectedMsg, none, false⟩ := rfl

/-! ## Claim C10: empty required argument -/

/--
C10: `malloc_chunk`, `search` and `find` called with an empty argument
return an error string immediately, with no write to the child and no pipe
access, in every session state.
-/
theorem C10_empty_arg_rejected (conn : Bool) (tr : Transport) :
    malloc_chunk conn tr "" = ⟨PyResult.ok "Error: 주소를 입력해주세요", none, false⟩ ∧
    search conn tr "" = ⟨PyResult.ok "Error: 검색할 패턴을 입력해주세요", none, false⟩ ∧
    find conn tr "" = ⟨PyResult.ok "Error: 검색할 패턴을 입력해주세요", none, false⟩ :=
  ⟨rfl, rfl, rfl⟩

/-! ## Claim C5: the operation boundary never throws -/

/--
C5: `_execute_safe_command` always returns a string at the operation
boundary.  The body (`execBody`) does raise on a transport fault — a write
failure surfaces as a `PyResult.exn` — but the `except Exception` wrapper
converts it into the textual failure message, so the outcome at the
boundary is `PyResult.ok` for every connection state, transport behaviour
and command.
-/
theorem C5_always_returns_text (conn : Bool) (tr : Transport) (command : String) :
    (∃ s, (execute_safe_command conn tr command).result = PyResult.ok s) ∧
    (∃ s, (execute_custom_command conn tr command).result = PyResult.ok s) ∧
    (∀ e, tr.writeFault = some e →
      execBody tr command = PyResult.exn e ∧
      (execute_safe_command true tr command).result = PyResult.ok (execFailMsg e)) := by
  refine ⟨?_, ?_, ?_⟩
  · unfold execute_safe_command
    split
    · exact ⟨_, rfl⟩
    · split
      · exact ⟨_, rfl⟩
      · exact ⟨_, rfl⟩
  · unfold execute_custom_command
    split
    · exact ⟨_, rfl⟩
    · exact ⟨_, rfl⟩
    · exact ⟨_, rfl⟩
    · exact ⟨_, rfl⟩
    · exact ⟨_, rfl⟩
    · dsimp only
      split
      · exact ⟨_, rfl⟩
      · exact ⟨_, rfl⟩
  · intro e he
    have hb : execBody tr command = PyResult.exn e := by
      unfold execBody
      rw [he]
    refine ⟨hb, ?_⟩
    unfold execute_safe_command
    rw [if_neg (by simp), hb]

/-- C5, witness: a broken-pipe write fault becomes the textual failure message. -/
theorem C5_witness :
    execBody ⟨some "BrokenPipeError", []⟩ "heap" = PyResult.exn "BrokenPipeError" ∧
    (execute_safe_command true ⟨some "BrokenPipeError", []⟩ "heap").result =
      PyResult.ok (execFailMsg "BrokenPipeError") :=
  (C5_always_returns_text true ⟨some "BrokenPipeError", []⟩ "heap").2.2 "BrokenPipeError" rfl

/-! ## Claim C6: argument-taking tools skip the gate -/

lemma execute_safe_command_written (tr : Transport) (command : String)
    (hw : tr.writeFault = none) :
    (execute_safe_command true tr command).written = some (command ++ "\n") := by
  unfold execute_safe_command
  rw [if_neg (by simp)]
  cases hb : execBody tr command <;> simp [writtenBytes, hw]

/--
C6: the fixed argument-taking tools interpolate their argument after the
literal base command and hand the result straight to the session: when the
session is connected and the write succeeds, exactly
`"<base> <argument>\n"` is written to the child's stdin, for EVERY argument
string — no whitelist or dangerous-pattern validation intervenes, so
arguments containing forbidden substrings such as `";"` or `"|"` reach the
child's input pipe verbatim.
-/
theorem C6_args_forwarded_unvalidated (tr : Transport) (address pattern : String)
    (haddr : address ≠ "") (hpat : pattern ≠ "") (hw : tr.writeFault = none) :
    (malloc_chunk true tr address).written = some ("chunk " ++ address ++ "\n") ∧
    (search true tr pattern).written = some ("search " ++ pattern ++ "\n") ∧
    (find true tr pattern).written = some ("find " ++ pattern ++ "\n") ∧
    (telescope true tr address).written = some ("telescope " ++ address ++ "\n") := by
  refine ⟨?_, ?_, ?_, ?_⟩
  · unfold malloc_chunk
    rw [if_neg haddr]
    exact execute_safe_command_written tr _ hw
  · unfold search
    rw [if_neg hpat]
    exact execute_safe_command_written tr _ hw
  · unfold find
    rw [if_neg hpat]
    exact execute_safe_command_written tr _ hw
  · unfold telescope
    rw [if_pos haddr]
    exact execute_safe_command_written tr _ hw

/--
C6, witness: arguments carrying the forbidden substrings `";"` and `"|"`
are written to the child verbatim.
-/
theorem C6_witness :
    (malloc_chunk true ⟨none, []⟩ "0x10; rm -rf /").written =
      some ("chunk " ++ "0x10; rm -rf /" ++ "\n") ∧
    (search true ⟨none, []⟩ "a|b").written = some ("search " ++ "a|b" ++ "\n") ∧
    (find true ⟨none, []⟩ "a|b").written = some ("find " ++ "a|b" ++ "\n") ∧
    (telescope true ⟨none, []⟩ "0x10; rm -rf /").written =
      some ("telescope " ++ "0x10; rm -rf /" ++ "\n") :=
  C6_args_forwarded_unvalidated ⟨none, []⟩ "0x10; rm -rf /" "a|b"
    (by decide) (by decide) rfl


/-! ## Stepping lemmas for the byte-read loop, and claims C2 and C7 -/


lemma execLoop_chr (fuel : Nat) (rest : List (Nat × Rd)) (lines : List String)
    (done : List Char) (c : Char)
    (hc : c ≠ '\n')
    (hps : pyEndsWith ⟨done ++ [c]⟩ promptSentinel = false)
    (hlen : lines.length ≤ 200) :
    execLoop (fuel + 1) ((0, Rd.chr c) :: rest) 0 lines ⟨done⟩ =
      execLoop fuel rest 0 lines ⟨done ++ [c]⟩ := by
  simp only [execLoop]
  rw [if_pos (show (0:Nat) < timeoutCs by decide)]
  rw [if_pos (show (0:Nat) ≤ 0 + 10 by decide)]
  rw [mk_push]
  rw [if_neg hc]
  rw [if_neg (by simp [hps])]
  rw [if_neg (show ¬ (lines.length > 200) by omega)]
  simp

lemma execLoop_nl (fuel : Nat) (rest : List (Nat × Rd)) (lines : List String)
    (done : List Char)
    (hne : done ≠ [])
    (hnl : ∀ c ∈ done, c ≠ '\n' ∧ c ≠ '\r')
    (hps : pyEndsWith ⟨done⟩ promptSentinel = false)
    (hlen : lines.length ≤ 200) :
    execLoop (fuel + 1) ((0, Rd.chr '\n') :: rest) 0 lines ⟨done⟩ =
      if lines.length = 200 then
        PyResult.ok ⟨lines ++ [⟨done⟩, truncationMarker], "", ExitReason.truncated⟩
      else
        execLoop fuel rest 0 (lines ++ [⟨done⟩]) "" := by
  simp only [execLoop]
  rw [if_pos (show (0:Nat) < timeoutCs by decide)]
  rw [if_pos (show (0:Nat) ≤ 0 + 10 by decide)]
  rw [mk_push]
  rw [if_pos trivial]
  rw [pyRstripChars_newline done hnl]
  rw [if_pos ((mk_ne_empty_iff done).mpr hne)]
  rw [if_neg (by simp [hps])]
  by_cases h200 : lines.length = 200
  · rw [if_pos (by simp [h200]), if_pos h200]
    simp
  · rw [if_neg (by simp; omega), if_neg h200]
    simp

lemma execLoop_idle (fuel : Nat) (lines : List String) (hlines : lines ≠ []) :
    execLoop (fuel + 1) [] 0 lines "" = PyResult.ok ⟨lines, "", ExitReason.idleQuiet⟩ := by
  simp only [execLoop]
  rw [if_pos (show (0:Nat) < timeoutCs by decide)]
  rw [if_pos ⟨hlines, trivial⟩]

lemma processGoodLine (lchars : List Char)
    (hne : lchars ≠ [])
    (hnl : ∀ c ∈ lchars, c ≠ '\n' ∧ c ≠ '\r')
    (hns : containsSub promptSentinel.data lchars = false)
    (rest : List (Nat × Rd)) (lines : List String) (hlen : lines.length ≤ 200) :
    ∀ todo done fuel, done ++ todo = lchars →
      execLoop (fuel + todo.length + 1) (charsStream (todo ++ ['\n']) ++ rest) 0 lines ⟨done⟩ =
        if lines.length = 200 then
          PyResult.ok ⟨lines ++ [⟨lchars⟩, truncationMarker], "", ExitReason.truncated⟩
        else
          execLoop fuel rest 0 (lines ++ [⟨lchars⟩]) "" := by
  intro todo
  induction todo with
  | nil =>
    intro done fuel hsplit
    rw [List.append_nil] at hsplit
    subst hsplit
    have hgoal := execLoop_nl fuel rest lines done hne hnl
      (not_endsWith_of_not_containsSub hns done [] (by simp)) hlen
    simpa [charsStream] using hgoal
  | cons c cs ih =>
    intro done fuel hsplit
    have hmem : c ∈ lchars := by rw [← hsplit]; simp
    have hc : c ≠ '\n' := (hnl c hmem).1
    have hps : pyEndsWith ⟨done ++ [c]⟩ promptSentinel = false :=
      not_endsWith_of_not_containsSub hns (done ++ [c]) cs (by rw [← hsplit]; simp)
    have harith : fuel + (c :: cs).length + 1 = (fuel + cs.length + 1) + 1 := by
      simp [List.length_cons]
      omega
    rw [harith]
    have hstream : charsStream ((c :: cs) ++ ['\n']) ++ rest =
        (0, Rd.chr c) :: (charsStream (cs ++ ['\n']) ++ rest) := by
      simp [charsStream]
    rw [hstream]
    rw [execLoop_chr (fuel + cs.length + 1) _ lines done c hc hps hlen]
    exact ih (done ++ [c]) fuel (by rw [← hsplit]; simp)

lemma processGoodLine_start (lchars : List Char)
    (hne : lchars ≠ []) (hnl : ∀ c ∈ lchars, c ≠ '\n' ∧ c ≠ '\r')
    (hns : containsSub promptSentinel.data lchars = false)
    (rest : List (Nat × Rd)) (lines : List String) (hlen : lines.length ≤ 200)
    (fuel : Nat) :
    execLoop (fuel + lchars.length + 1) (charsStream (lchars ++ ['\n']) ++ rest) 0 lines "" =
      if lines.length = 200 then
        PyResult.ok ⟨lines ++ [⟨lchars⟩, truncationMarker], "", ExitReason.truncated⟩
      else
        execLoop fuel rest 0 (lines ++ [⟨lchars⟩]) "" :=
  processGoodLine lchars hne hnl hns rest lines hlen lchars [] fuel (by simp)

lemma processGoodLines (ls : List String) (hgood : ∀ l ∈ ls, GoodLine l) :
    ∀ lines fuel rest, lines.length + ls.length ≤ 200 →
      execLoop (fuel + (flatChars ls).length) (charsStream (flatChars ls) ++ rest) 0 lines "" =
        execLoop fuel rest 0 (lines ++ ls) "" := by
  induction ls with
  | nil =>
    intro lines fuel rest _
    simp [flatChars, charsStream]
  | cons l t ih =>
    intro lines fuel rest hle
    obtain ⟨hne, hnl, hns⟩ := hgood l (by simp)
    have hflat : flatChars (l :: t) = (l.data ++ ['\n']) ++ flatChars t := by
      simp [flatChars]
    rw [hflat]
    have harith : fuel + ((l.data ++ ['\n']) ++ flatChars t).length =
        (fuel + (flatChars t).length) + l.data.length + 1 := by
      simp [List.length_append]
      omega
    rw [harith]
    have hstream : charsStream ((l.data ++ ['\n']) ++ flatChars t) ++ rest =
        charsStream (l.data ++ ['\n']) ++ (charsStream (flatChars t) ++ rest) := by
      simp [charsStream]
    rw [hstream]
    have h200 : lines.length ≤ 200 := by
      simp [List.length_cons] at hle
      omega
    rw [processGoodLine_start l.data hne hnl hns (charsStream (flatChars t) ++ rest)
      lines h200 (fuel + (flatChars t).length)]
    rw [if_neg (by simp [List.length_cons] at hle; omega)]
    have heta : (⟨l.data⟩ : String) = l := rfl
    rw [heta]
    rw [ih (fun x hx => hgood x (by simp [hx])) (lines ++ [l]) fuel rest
      (by simp [List.length_cons] at hle ⊢; omega)]
    have hlist : (lines ++ [l]) ++ t = lines ++ l :: t := by simp
    rw [hlist]

lemma collectedOut_trunc (ls : List String) (h500 : ls.length = 500)
    (hgood : ∀ l ∈ ls, GoodLine l) :
    collectedOut (linesStream ls) =
      PyResult.ok ⟨ls.take 201 ++ [truncationMarker], "", ExitReason.truncated⟩ := by
  cases hd : ls.drop 200 with
  | nil =>
    exfalso
    have hlen := congrArg List.length hd
    rw [List.length_drop, h500] at hlen
    norm_num at hlen
  | cons l B =>
    have hsp : ls = ls.take 200 ++ l :: B := by
      conv_lhs => rw [← List.take_append_drop 200 ls]
      rw [hd]
    have hA : (ls.take 200).length = 200 := by
      rw [List.length_take, h500]
      decide
    have hgA : ∀ x ∈ ls.take 200, GoodLine x :=
      fun x hx => hgood x (List.take_subset 200 ls hx)
    obtain ⟨hne, hnl, hns⟩ := hgood l (by rw [hsp]; simp)
    rw [collectedOut, linesStream]
    have hslen : (charsStream (flatChars ls)).length = (flatChars ls).length := by
      simp [charsStream]
    rw [hslen]
    conv_lhs => rw [hsp]
    have hflat : flatChars (ls.take 200 ++ l :: B) =
        flatChars (ls.take 200) ++ ((l.data ++ ['\n']) ++ flatChars B) := by
      simp [flatChars]
    rw [hflat]
    have hfuel : (flatChars (ls.take 200) ++ ((l.data ++ ['\n']) ++ flatChars B)).length + 100 =
        ((((flatChars B).length + 100) + l.data.length + 1) + (flatChars (ls.take 200)).length) := by
      simp [List.length_append]
      omega
    rw [hfuel]
    have hst : charsStream (flatChars (ls.take 200) ++ ((l.data ++ ['\n']) ++ flatChars B)) =
        charsStream (flatChars (ls.take 200)) ++
          (charsStream ((l.data ++ ['\n']) ++ flatChars B) ++ []) := by
      simp [charsStream]
    rw [hst]
    rw [processGoodLines (ls.take 200) hgA []
      (((flatChars B).length + 100) + l.data.length + 1)
      (charsStream ((l.data ++ ['\n']) ++ flatChars B) ++ []) (by simp [hA])]
    have hnilapp : ([] : List String) ++ ls.take 200 = ls.take 200 := by simp
    rw [hnilapp]
    have hst2 : charsStream ((l.data ++ ['\n']) ++ flatChars B) ++ [] =
        charsStream (l.data ++ ['\n']) ++ (charsStream (flatChars B) ++ []) := by
      simp [charsStream]
    rw [hst2]
    rw [processGoodLine_start l.data hne hnl hns (charsStream (flatChars B) ++ [])
      (ls.take 200) (le_of_eq hA) ((flatChars B).length + 100)]
    rw [if_pos hA]
    have heta : (⟨l.data⟩ : String) = l := rfl
    rw [heta]
    have htake : ls.take 201 = ls.take 200 ++ [l] := by
      conv_lhs => rw [hsp]
      rw [List.take_append_eq_append_take]
      rw [List.take_of_length_le (by rw [hA]; omega)]
      rw [hA]
      norm_num
    rw [htake]
    have hlist : (ls.take 200 ++ [l]) ++ [truncationMarker] =
        ls.take 200 ++ [l, truncationMarker] := by simp
    rw [hlist]

lemma cls_length : cls.length = 500 := by simp [cls]

lemma cls_nodup : cls.Nodup := by
  unfold cls
  refine List.Nodup.map ?_ (List.nodup_range 500)
  intro a b hab
  have hrep : List.replicate (a + 1) 'x' = List.replicate (b + 1) 'x' := by
    injection hab
  have hlen := congrArg List.length hrep
  simp [List.length_replicate] at hlen
  omega

lemma containsSub_prompt_repx (m : Nat) :
    containsSub promptSentinel.data (List.replicate m 'x') = false := by
  induction m with
  | zero => decide
  | succ k ihk =>
    rw [List.replicate_succ]
    simp only [containsSub, ihk, Bool.or_false]
    have hpd : promptSentinel.data = ['p', 'w', 'n', 'd', 'b', 'g', '>'] := rfl
    rw [hpd]
    simp only [beginsWith]
    rw [show (('p' : Char) == 'x') = false by decide]
    simp

lemma cls_good : ∀ l ∈ cls, GoodLine l := by
  intro l hl
  simp only [cls, List.mem_map, List.mem_range] at hl
  obtain ⟨i, hi, rfl⟩ := hl
  refine ⟨?_, ?_, containsSub_prompt_repx (i + 1)⟩
  · show List.replicate (i + 1) 'x' ≠ []
    simp
  · intro c hc
    have hcx : c = 'x' := List.eq_of_mem_replicate hc
    subst hcx
    exact ⟨by decide, by decide⟩

lemma execAfterWrite_ok (tr : Transport) (command : String) (out : LoopOut)
    (h : collectedOut tr.stream = PyResult.ok out) :
    execAfterWrite tr command =
      (let lines := finalLines out
       if lines ≠ [] then
         let result := pyJoin "\n" lines
         PyResult.ok (if pyStrip result ≠ "" then result else execDoneMsg command)
       else
         PyResult.ok (execNoOutputMsg command)) := by
  unfold execAfterWrite
  rw [h]

/--
C2, amended: a child that emits 500 distinct non-empty newline-terminated
benign lines before any prompt sentinel yields a result whose line count is
exactly 202, the 202nd (last) line being the literal truncation marker — the
cap check `len(output_lines) > 200` fires only after the 201st line has been
appended, so 201 real lines survive plus the marker.
-/
theorem C2_truncation_line_count (ls : List String)
    (h500 : ls.length = 500) (hnd : ls.Nodup) (hgood : ∀ l ∈ ls, GoodLine l) :
    collectedOut (linesStream ls) =
      PyResult.ok ⟨ls.take 201 ++ [truncationMarker], "", ExitReason.truncated⟩ ∧
    (ls.take 201 ++ [truncationMarker]).length = 202 ∧
    (ls.take 201 ++ [truncationMarker]).getLast? = some truncationMarker ∧
    finalLines ⟨ls.take 201 ++ [truncationMarker], "", ExitReason.truncated⟩ =
      ls.take 201 ++ [truncationMarker] := by
  refine ⟨collectedOut_trunc ls h500 hgood, ?_, ?_, ?_⟩
  · simp [List.length_take, h500]
  · simp
  · have h0 : pyStrip "" = "" := rfl
    simp [finalLines, h0]

/--
C2, counterexample: a concrete child emitting the 500 distinct non-empty
lines `"x"`, `"xx"`, …, `"x"*500` (no prompt ever) produces a result whose
line count is NOT 201 — it is 202 — so the claimed count of exactly 201 is
false.
-/
theorem C2_claim_false_at_cls :
    cls.length = 500 ∧ cls.Nodup ∧ (∀ l ∈ cls, GoodLine l) ∧
    ∃ out, collectedOut (linesStream cls) = PyResult.ok out ∧
      (finalLines out).length ≠ 201 := by
  refine ⟨cls_length, cls_nodup, cls_good,
    ⟨⟨cls.take 201 ++ [truncationMarker], "", ExitReason.truncated⟩,
     collectedOut_trunc cls cls_length cls_good, ?_⟩⟩
  have h0 : pyStrip "" = "" := rfl
  simp [finalLines, h0, List.length_take, cls_length]

/-- C2, witness: the amended count at the concrete 500-line child. -/
theorem C2_truncation_witness :
    collectedOut (linesStream cls) =
      PyResult.ok ⟨cls.take 201 ++ [truncationMarker], "", ExitReason.truncated⟩ ∧
    (cls.take 201 ++ [truncationMarker]).length = 202 :=
  ⟨(C2_truncation_line_count cls cls_length cls_nodup cls_good).1,
   (C2_truncation_line_count cls cls_length cls_nodup cls_good).2.1⟩

/--
C7: a child that emits one visible line and whose pipe then never becomes
readable again (never closes, never reprints a prompt) makes the loop stop
through the idle-confirmation branch (`ExitReason.idleQuiet`) — not through
the deadline — and the command execution returns exactly that one line.
-/
theorem C7_single_line_idle (l : String) (command : String)
    (hl : GoodLine l) (hvis : pyStrip l ≠ "") :
    collectedOut (linesStream [l]) = PyResult.ok ⟨[l], "", ExitReason.idleQuiet⟩ ∧
    (execute_safe_command true ⟨none, linesStream [l]⟩ command).result = PyResult.ok l := by
  obtain ⟨hne, hnl, hns⟩ := hl
  have hflat : flatChars [l] = l.data ++ ['\n'] := by simp [flatChars]
  have hstream : linesStream [l] = charsStream (l.data ++ ['\n']) := by
    rw [linesStream, hflat]
  have hmain : collectedOut (linesStream [l]) =
      PyResult.ok ⟨[l], "", ExitReason.idleQuiet⟩ := by
    rw [collectedOut, hstream]
    have hslen : (charsStream (l.data ++ ['\n'])).length = l.data.length + 1 := by
      simp [charsStream]
    rw [hslen]
    have harith : l.data.length + 1 + 100 = 100 + l.data.length + 1 := by omega
    rw [harith]
    have happ : charsStream (l.data ++ ['\n']) = charsStream (l.data ++ ['\n']) ++ [] := by
      simp
    rw [happ]
    rw [processGoodLine_start l.data hne hnl hns [] [] (by simp) 100]
    rw [if_neg (by decide)]
    have heta : ([] ++ [(⟨l.data⟩ : String)]) = [l] := by simp
    rw [heta]
    exact execLoop_idle 99 [l] (by simp)
  refine ⟨hmain, ?_⟩
  have h0 : pyStrip "" = "" := rfl
  have hfl : finalLines ⟨[l], "", ExitReason.idleQuiet⟩ = [l] := by
    unfold finalLines
    simp [h0]
  have hjoin : pyJoin "\n" [l] = l := rfl
  have hbody : execBody ⟨none, linesStream [l]⟩ command = PyResult.ok l := by
    show execAfterWrite ⟨none, linesStream [l]⟩ command = PyResult.ok l
    rw [execAfterWrite_ok ⟨none, linesStream [l]⟩ command ⟨[l], "", ExitReason.idleQuiet⟩ hmain]
    simp only [hfl, hjoin]
    rw [if_pos (by simp)]
    rw [if_pos hvis]
  unfold execute_safe_command
  rw [if_neg (by simp), hbody]

/-- C7, witness: the concrete line `"one-line"` with a silent pipe afterwards. -/
theorem C7_single_line_witness :
    collectedOut (linesStream ["one-line"]) =
      PyResult.ok ⟨["one-line"], "", ExitReason.idleQuiet⟩ ∧
    (execute_safe_command true ⟨none, linesStream ["one-line"]⟩ "telescope").result =
      PyResult.ok "one-line" :=
  C7_single_line_idle "one-line" "telescope" (by decide) (by decide)

end PwndbgServer
